import Mathlib

/-!
Shallow embedding of the `master_dashboard` backend core
(`backend/app/services/alert_manager.py`,
`backend/app/api/v1/endpoints/alerts.py`,
`backend/app/api/v1/endpoints/metrics.py`,
`backend/app/core/websocket_manager.py`) together with the theorems
settling the specification claims about it.

Modelling conventions:
* Python `datetime` values are integer UTC seconds (`ℤ`); subtraction
  followed by `.seconds` is the Euclidean remainder modulo 86400, exactly
  as Python normalises a `timedelta` into days plus a seconds component.
* Float metric/threshold values are rationals plus an explicit NaN marker
  (`Val`); every IEEE comparison involving NaN is false, which the
  comparison function reflects.
* Python dicts are association lists in insertion order; dict assignment
  replaces the value in place for an existing key and appends otherwise.
* SQLAlchemy tables are Lean lists in insertion order; `first()` on a
  filtered query is the first matching list element; `order_by(desc)`
  followed by `first()` is the maximal-timestamp element (latest inserted
  wins ties, which the database leaves unspecified).
* Presentation-only free-text fields that no claim inspects (the alert
  `message` body built by `_create_alert`, log lines, email/slack/webhook
  payloads) are elided; notification sends have no effect on any state a
  claim mentions and are dropped.
-/

namespace MasterDashboard

/-! ### Association-list dictionaries (Python `dict` in insertion order) -/

def dlookup {K V : Type} [DecidableEq K] (l : List (K × V)) (k : K) : Option V :=
  (l.find? (fun p => decide (p.1 = k))).map Prod.snd

def dcontains {K V : Type} [DecidableEq K] (l : List (K × V)) (k : K) : Bool :=
  l.any (fun p => decide (p.1 = k))

/-- `d[k] = v`: replace in place when the key exists, append otherwise. -/
def dinsert {K V : Type} [DecidableEq K] (l : List (K × V)) (k : K) (v : V) :
    List (K × V) :=
  if dcontains l k then l.map (fun p => if p.1 = k then (k, v) else p)
  else l ++ [(k, v)]

/-- `del d[k]` (we only invoke it on present keys, as the source does). -/
def dremove {K V : Type} [DecidableEq K] (l : List (K × V)) (k : K) :
    List (K × V) :=
  l.filter (fun p => !(decide (p.1 = k)))

def wkeys {K V : Type} (l : List (K × V)) : List K := l.map Prod.fst

/-- Replace the first element satisfying `p` by its image under `f`
(SQLAlchemy `query.filter(...).first()` followed by mutating that row). -/
def updateFirst {α : Type} (p : α → Bool) (f : α → α) : List α → List α
  | [] => []
  | x :: xs => if p x then f x :: xs else x :: updateFirst p f xs

/-! ### Time: Python `(a - b).seconds` -/

/-- `(a - b).seconds` for two datetimes in whole UTC seconds: Python
normalises the timedelta into days plus a seconds component in
`[0, 86400)`, i.e. the Euclidean remainder of the difference mod 86400. -/
def tdSeconds (a b : ℤ) : ℤ := Int.emod (a - b) 86400

/-! ### Enumerations (`backend/app/models/alerts.py`, `models/metrics.py`) -/

inductive AlertSeverity
  | low | medium | high | critical
  deriving DecidableEq, Repr

inductive AlertStatus
  | active | acknowledged | resolved | suppressed
  deriving DecidableEq, Repr

inductive CmpOp
  | gt | lt | eq | gte | lte | ne
  deriving DecidableEq, Repr

inductive MetricType
  | cpu_usage | cpu_temperature | cpu_frequency
  | memory_usage | memory_available
  | gpu_usage | gpu_memory | gpu_temperature
  | disk_usage | disk_io_read | disk_io_write
  | network_io_sent | network_io_recv
  | power_consumption | process_count | load_average | uptime
  deriving DecidableEq, Repr

/-! ### Values: doubles with an explicit NaN marker -/

inductive Val
  | nan
  | num (q : ℚ)
  deriving DecidableEq, Repr

/-! ### Records (`backend/app/models`) -/

structure Metric where
  machine_id : ℕ
  metric_type : MetricType
  component_name : Option String
  value : Val
  unit : Option String
  timestamp : ℤ
  deriving DecidableEq, Repr

structure Rule where
  id : ℕ
  machine_id : ℕ
  name : String
  metric_type : MetricType
  threshold_value : ℚ
  comparison_operator : CmpOp
  severity : AlertSeverity
  enabled : Bool
  evaluation_interval : ℤ
  cooldown_period : ℤ
  deriving DecidableEq, Repr

structure AlertRec where
  alert_id : ℕ
  rule_id : ℕ
  machine_id : ℕ
  severity : AlertSeverity
  status : AlertStatus
  metric_type : MetricType
  current_value : Val
  threshold_value : ℚ
  triggered_at : ℤ
  acknowledged_at : Option ℤ
  resolved_at : Option ℤ
  acknowledged_by : Option String
  resolved_by : Option String
  notes : Option String
  deriving DecidableEq, Repr

structure Machine where
  id : ℕ
  name : String
  last_seen : Option ℤ
  last_metrics_update : Option ℤ
  deriving DecidableEq, Repr

/-- The shared backend state: the database tables plus the
`AlertManager`'s in-process per-rule maps (`last_evaluations`,
`cooldown_periods`, keyed by `str(rule.id)`). -/
structure Sys where
  metrics : List Metric
  alerts : List AlertRec
  rules : List Rule
  machines : List Machine
  last_evaluations : List (ℕ × ℤ)
  cooldown_periods : List (ℕ × ℤ)
  next_alert_id : ℕ
  deriving DecidableEq, Repr

/-! ### AlertManager._evaluate_condition -/

/-- Threshold comparison (`_evaluate_condition`). Every IEEE comparison
with NaN is false, including both `abs(v-t) < 0.001` and
`abs(v-t) >= 0.001`. -/
def evalCondition : Val → ℚ → CmpOp → Bool
  | Val.nan, _, _ => false
  | Val.num v, t, CmpOp.gt => decide (v > t)
  | Val.num v, t, CmpOp.lt => decide (v < t)
  | Val.num v, t, CmpOp.eq => decide (|v - t| < 1/1000)
  | Val.num v, t, CmpOp.gte => decide (v ≥ t)
  | Val.num v, t, CmpOp.lte => decide (v ≤ t)
  | Val.num v, t, CmpOp.ne => decide (|v - t| ≥ 1/1000)

/-! ### TimeSeriesStore.latest: the `order_by(timestamp.desc()).first()` query -/

def latestMetric (metrics : List Metric) (mid : ℕ) (mt : MetricType) :
    Option Metric :=
  metrics.foldl
    (fun acc m =>
      if m.machine_id = mid ∧ m.metric_type = mt then
        match acc with
        | none => some m
        | some b => if b.timestamp ≤ m.timestamp then some m else some b
      else acc)
    none

/-! ### AlertManager._evaluate_rule -/

def cooldownBlocked (s : Sys) (key : ℕ) (now : ℤ) : Bool :=
  match dlookup s.cooldown_periods key with
  | some untilT => decide (now < untilT)
  | none => false

def intervalBlocked (s : Sys) (rule : Rule) (now : ℤ) : Bool :=
  match dlookup s.last_evaluations rule.id with
  | some last => decide (tdSeconds now last < rule.evaluation_interval)
  | none => false

def hasActiveAlert (alerts : List AlertRec) (rid : ℕ) : Bool :=
  alerts.any (fun a => decide (a.rule_id = rid ∧ a.status = AlertStatus.active))

def countActive (alerts : List AlertRec) (rid : ℕ) : ℕ :=
  (alerts.filter
    (fun a => decide (a.rule_id = rid ∧ a.status = AlertStatus.active))).length

/-- `self.last_evaluations[rule_key] = current_time` -/
def recordEval (s : Sys) (key : ℕ) (now : ℤ) : Sys :=
  { s with last_evaluations := dinsert s.last_evaluations key now }

/-- `self.cooldown_periods[rule_key] = current_time + timedelta(seconds=rule.cooldown_period)` -/
def startCooldown (s : Sys) (rule : Rule) (now : ℤ) : Sys :=
  { s with cooldown_periods :=
      dinsert s.cooldown_periods rule.id (now + rule.cooldown_period) }

/-- The alert row `_create_alert` inserts: every new alert carries the
model default `status=active` and `triggered_at` stamped at creation. -/
def newAlert (s : Sys) (rule : Rule) (m : Metric) (now : ℤ) : AlertRec :=
  { alert_id := s.next_alert_id
    rule_id := rule.id
    machine_id := rule.machine_id
    severity := rule.severity
    status := AlertStatus.active
    metric_type := rule.metric_type
    current_value := m.value
    threshold_value := rule.threshold_value
    triggered_at := now
    acknowledged_at := none
    resolved_at := none
    acknowledged_by := none
    resolved_by := none
    notes := none }

/-- `_create_alert`: silently returns without inserting when the rule's
machine is missing; otherwise inserts one new active alert. -/
def createAlert (s : Sys) (rule : Rule) (m : Metric) (now : ℤ) : Sys :=
  match s.machines.find? (fun mc => decide (mc.id = rule.machine_id)) with
  | none => s
  | some _ =>
      { s with alerts := s.alerts ++ [newAlert s rule m now]
               next_alert_id := s.next_alert_id + 1 }

/-- The auto-resolve mutation of the first active alert for the rule. -/
def autoResolve (alerts : List AlertRec) (rid : ℕ) (now : ℤ) : List AlertRec :=
  updateFirst
    (fun a => decide (a.rule_id = rid ∧ a.status = AlertStatus.active))
    (fun a =>
      { a with status := AlertStatus.resolved
               resolved_at := some now
               resolved_by := some ("system")
               notes := some ("Auto-resolved: condition no longer met") })
    alerts

def autoResolveState (s : Sys) (rid : ℕ) (now : ℤ) : Sys :=
  { s with alerts := autoResolve s.alerts rid now }

/-- `AlertManager._evaluate_rule(db, rule)` at wall-clock time `now`:
cooldown guard, evaluation-interval guard, latest-metric lookup, the
hard-coded 120-second staleness guard, then either alert creation (with
cooldown start, set even when `_create_alert` bailed on a missing
machine) or auto-resolution of the first active alert. -/
def evaluateRule (s : Sys) (rule : Rule) (now : ℤ) : Sys :=
  if cooldownBlocked s rule.id now then s
  else if intervalBlocked s rule now then s
  else
    match latestMetric s.metrics rule.machine_id rule.metric_type with
    | none => s
    | some m =>
        if tdSeconds now m.timestamp > 120 then s
        else if evalCondition m.value rule.threshold_value rule.comparison_operator then
          if hasActiveAlert s.alerts rule.id then recordEval s rule.id now
          else startCooldown (createAlert (recordEval s rule.id now) rule m now) rule now
        else autoResolveState (recordEval s rule.id now) rule.id now

/-! ### Alerts API (`backend/app/api/v1/endpoints/alerts.py`) -/

/-- Payload of `POST /alerts` (`AlertCreate`): note it carries no status
field, so the inserted row takes the model default `status=active`. -/
structure AlertCreate where
  rule_id : ℕ
  machine_id : ℕ
  severity : AlertSeverity
  metric_type : MetricType
  current_value : Val
  threshold_value : ℚ
  deriving DecidableEq, Repr

/-- `create_alert`: inserts the row unconditionally — there is no
dedup/status check. The only way the insert can fail is the foreign-key
constraints on `rule_id`/`machine_id` at commit, in which case no row is
stored. -/
def apiCreateAlert (s : Sys) (c : AlertCreate) (now : ℤ) : Sys :=
  if (s.rules.any (fun r => decide (r.id = c.rule_id)))
      && (s.machines.any (fun mc => decide (mc.id = c.machine_id))) then
    { s with
        alerts := s.alerts ++
          [{ alert_id := s.next_alert_id
             rule_id := c.rule_id
             machine_id := c.machine_id
             severity := c.severity
             status := AlertStatus.active
             metric_type := c.metric_type
             current_value := c.current_value
             threshold_value := c.threshold_value
             triggered_at := now
             acknowledged_at := none
             resolved_at := none
             acknowledged_by := none
             resolved_by := none
             notes := none }]
        next_alert_id := s.next_alert_id + 1 }
  else s

/-- Payload of `PUT /alerts/\x7balert_id\x7d` (`AlertUpdate`); `none`
models a field absent from the request (pydantic `exclude_unset`). -/
structure AlertUpdate where
  status : Option AlertStatus
  acknowledged_by : Option String
  resolved_by : Option String
  notes : Option String
  deriving DecidableEq, Repr

/-- Body of `update_alert` applied to the fetched row: the `setattr`
loop copies every provided field verbatim (no transition validation),
then the timestamp block stamps acknowledged/resolved metadata when the
requested status is acknowledged/resolved and the matching timestamp is
still null. -/
def applyAlertUpdate (u : AlertUpdate) (now : ℤ) (user : String)
    (a : AlertRec) : AlertRec :=
  let a1 := match u.status with
    | some st => { a with status := st }
    | none => a
  let a2 := match u.acknowledged_by with
    | some x => { a1 with acknowledged_by := some x }
    | none => a1
  let a3 := match u.resolved_by with
    | some x => { a2 with resolved_by := some x }
    | none => a2
  let a4 := match u.notes with
    | some x => { a3 with notes := some x }
    | none => a3
  if u.status = some AlertStatus.acknowledged ∧ a4.acknowledged_at = (none : Option ℤ) then
    { a4 with acknowledged_at := some now, acknowledged_by := some user }
  else if u.status = some AlertStatus.resolved ∧ a4.resolved_at = (none : Option ℤ) then
    { a4 with resolved_at := some now, resolved_by := some user }
  else a4

/-- `update_alert` endpoint (a missing id raises 404 and changes
nothing, which coincides with `updateFirst` finding no match). -/
def updateAlertApi (s : Sys) (aid : ℕ) (u : AlertUpdate) (now : ℤ)
    (user : String) : Sys :=
  { s with alerts :=
      (updateFirst (fun a => decide (a.alert_id = aid))
        (applyAlertUpdate u now user) s.alerts) }

/-- One iteration of the `bulk_acknowledge_alerts` loop: fetch by id,
then mutate only when the row is currently active. -/
def ackOne (now : ℤ) (user : String) (notes : Option String)
    (alerts : List AlertRec) (aid : ℕ) : List AlertRec :=
  updateFirst (fun a => decide (a.alert_id = aid))
    (fun a =>
      if a.status = AlertStatus.active then
        let a1 := { a with status := AlertStatus.acknowledged
                           acknowledged_at := some now
                           acknowledged_by := some user }
        match notes with
        | some n => { a1 with notes := some n }
        | none => a1
      else a)
    alerts

def bulkAcknowledge (s : Sys) (ids : List ℕ) (notes : Option String)
    (now : ℤ) (user : String) : Sys :=
  { s with alerts := ids.foldl (ackOne now user notes) s.alerts }

/-- One iteration of the `bulk_resolve_alerts` loop: fetch by id, then
mutate only when the row is not already resolved. -/
def resolveOne (now : ℤ) (user : String) (notes : Option String)
    (alerts : List AlertRec) (aid : ℕ) : List AlertRec :=
  updateFirst (fun a => decide (a.alert_id = aid))
    (fun a =>
      if a.status ≠ AlertStatus.resolved then
        let a1 := { a with status := AlertStatus.resolved
                           resolved_at := some now
                           resolved_by := some user }
        match notes with
        | some n => { a1 with notes := some n }
        | none => a1
      else a)
    alerts

def bulkResolve (s : Sys) (ids : List ℕ) (notes : Option String)
    (now : ℤ) (user : String) : Sys :=
  { s with alerts := ids.foldl (resolveOne now user notes) s.alerts }

/-! ### Metrics API (`backend/app/api/v1/endpoints/metrics.py`) -/

/-- One record of a `MetricsBatch` (`MetricDataBase`): pydantic `float`
places no finiteness constraint on `value` and no consistency constraint
on `unit`. -/
structure MetricIn where
  metric_type : MetricType
  component_name : Option String
  value : Val
  unit : Option String
  deriving DecidableEq, Repr

structure MetricsBatch where
  machine_id : ℕ
  metrics : List MetricIn
  timestamp : Option ℤ
  deriving DecidableEq, Repr

inductive ApiError
  | machineNotFound (mid : ℕ)
  deriving DecidableEq, Repr

def mkBatchMetric (mid : ℕ) (ts : ℤ) (m : MetricIn) : Metric :=
  { machine_id := mid
    metric_type := m.metric_type
    component_name := m.component_name
    value := m.value
    unit := m.unit
    timestamp := ts }

/-- `submit_metrics_batch`: 404 when the machine is unknown; otherwise
every record is inserted as-is (no value/unit validation anywhere), the
machine watermark fields are updated, and the endpoint returns the list
of created rows — there is no per-record outcome list. -/
def submitMetricsBatch (s : Sys) (b : MetricsBatch) (now : ℤ) :
    Except ApiError (Sys × List Metric) :=
  match s.machines.find? (fun mc => decide (mc.id = b.machine_id)) with
  | none => Except.error (ApiError.machineNotFound b.machine_id)
  | some _ =>
      let ts := b.timestamp.getD now
      let newRecs := b.metrics.map (mkBatchMetric b.machine_id ts)
      Except.ok
        ({ s with
            metrics := s.metrics ++ newRecs
            machines := s.machines.map (fun mc =>
              if mc.id = b.machine_id then
                { mc with last_seen := some ts, last_metrics_update := some ts }
              else mc) },
         newRecs)

/-- `cleanup_old_metrics`: counts the rows with timestamp strictly older
than `now - days` (`timestamp < cutoff_date`), deletes exactly them
unless `dry_run`, and returns the pre-delete count in both modes. -/
def cleanupOldMetrics (s : Sys) (days : ℕ) (dryRun : Bool) (now : ℤ) :
    Sys × ℕ :=
  if dryRun then
    (s, (s.metrics.filter
          (fun m => decide (m.timestamp < now - 86400 * (days : ℤ)))).length)
  else
    ({ s with metrics :=
        (s.metrics.filter
          (fun m => !(decide (m.timestamp < now - 86400 * (days : ℤ))))) },
     (s.metrics.filter
        (fun m => decide (m.timestamp < now - 86400 * (days : ℤ)))).length)

/-! ### Step relations for reachability claims -/

/-- One engine evaluation of an enabled rule from the rules table
(`_evaluate_alert_rules` filters on `enabled` and calls
`_evaluate_rule` per rule). -/
inductive EvalStep : Sys → Sys → Prop
  | eval (s : Sys) (rule : Rule) (now : ℤ)
      (hmem : rule ∈ s.rules) (hen : rule.enabled = true) :
      EvalStep s (evaluateRule s rule now)

/-- Rule evaluations together with `POST /alerts` creations. -/
inductive Step : Sys → Sys → Prop
  | eval (s : Sys) (rule : Rule) (now : ℤ)
      (hmem : rule ∈ s.rules) (hen : rule.enabled = true) :
      Step s (evaluateRule s rule now)
  | create (s : Sys) (c : AlertCreate) (now : ℤ) :
      Step s (apiCreateAlert s c now)

/-! ### WebSocketManager (`backend/app/core/websocket_manager.py`)

Websocket handles are opaque naturals. Whether `send_text` to a given
client raises is modelled by a failure predicate `f : String → Bool`
fixed for the duration of one operation. Pure send effects (the welcome
message of `connect`, the payload content) change no registry state and
are elided; the `agent_disconnected` notification that `disconnect`
schedules with `create_task` runs later as its own broadcast operation
and is likewise not part of `disconnect`'s own state change. -/

structure WsState where
  active_connections : List (String × ℕ)
  client_types : List (String × String)
  last_seen : List (String × ℤ)
  deriving DecidableEq, Repr

/-- `disconnect`: guarded deletion from all three dicts (the source
`del`s from all three inside the `if client_id in active_connections`
check). -/
def wsDisconnect (st : WsState) (cid : String) : WsState :=
  if dcontains st.active_connections cid then
    { active_connections := dremove st.active_connections cid
      client_types := dremove st.client_types cid
      last_seen := dremove st.last_seen cid }
  else st

/-- `broadcast_to_dashboards`: send to every client whose registered
type is `dashboard`, collect the ids whose send failed, then disconnect
those (the loop's own `in active_connections` re-check is subsumed by
`disconnect`'s guard). Returns the new state and the ids successfully
sent to, in iteration order. -/
def wsBroadcastToDashboards (st : WsState) (f : String → Bool) :
    WsState × List String :=
  let dash := (wkeys st.active_connections).filter
    (fun cid => decide (dlookup st.client_types cid = some ("dashboard")))
  let sent := dash.filter (fun cid => !(f cid))
  let disc := dash.filter (fun cid => f cid)
  (disc.foldl wsDisconnect st, sent)

/-- `broadcast_message`: send to every connected client, collect the ids
whose send failed, then disconnect those. Returns the new state and the
ids successfully sent to, in iteration order. -/
def wsBroadcastMessage (st : WsState) (f : String → Bool) :
    WsState × List String :=
  let ids := wkeys st.active_connections
  let sent := ids.filter (fun cid => !(f cid))
  let disc := ids.filter (fun cid => f cid)
  (disc.foldl wsDisconnect st, sent)

/-- `connect`: register the client in all three dicts, then (for an
agent) broadcast an `agent_connected` event to the dashboard clients,
which may deregister dashboards whose send fails. -/
def wsConnect (st : WsState) (ws : ℕ) (ctype : String) (cid : String)
    (now : ℤ) (f : String → Bool) : WsState :=
  let st1 : WsState :=
    { active_connections := dinsert st.active_connections cid ws
      client_types := dinsert st.client_types cid ctype
      last_seen := dinsert st.last_seen cid now }
  if ctype = "agent" then (wsBroadcastToDashboards st1 f).1 else st1

/-- The registry invariant of claim C9: the three dicts always share one
key set. -/
def wsInv (st : WsState) : Prop :=
  (∀ k, k ∈ wkeys st.active_connections ↔ k ∈ wkeys st.client_types) ∧
  (∀ k, k ∈ wkeys st.active_connections ↔ k ∈ wkeys st.last_seen)

/-- The dedup invariant of §3/§8: at most one active alert per rule id. -/
def dedupInv (alerts : List AlertRec) : Prop :=
  ∀ r : ℕ, countActive alerts r ≤ 1

/-! ### Concrete fixtures for witnesses and counterexamples -/

def mach1 : Machine :=
  { id := 1, name := "M1", last_seen := none, last_metrics_update := none }

def cpuM (v : ℚ) (t : ℤ) : Metric :=
  { machine_id := 1, metric_type := MetricType.cpu_usage, component_name := none,
    value := Val.num v, unit := some ("%"), timestamp := t }

/-- Rule of concrete scenario 1: `cpu_usage > 80`, cooldown 300 s. -/
def ruleCpu : Rule :=
  { id := 1, machine_id := 1, name := "HighCPU", metric_type := MetricType.cpu_usage,
    threshold_value := 80, comparison_operator := CmpOp.gt,
    severity := AlertSeverity.high, enabled := true,
    evaluation_interval := 60, cooldown_period := 300 }

def emptySysWith (ms : List Metric) (als : List AlertRec) (rs : List Rule)
    (machs : List Machine) : Sys :=
  { metrics := ms, alerts := als, rules := rs, machines := machs,
    last_evaluations := [], cooldown_periods := [], next_alert_id := 1 }

def c1Start : Sys := emptySysWith [] [] [ruleCpu] [mach1]

def c1Req : AlertCreate :=
  { rule_id := 1, machine_id := 1, severity := AlertSeverity.high,
    metric_type := MetricType.cpu_usage, current_value := Val.num 85,
    threshold_value := 80 }

def c1Bad : Sys := apiCreateAlert (apiCreateAlert c1Start c1Req 0) c1Req 0

/-- Rule with a 30 s evaluation interval, so `2 × evaluation_interval`
is 60 s, strictly below the hard-coded 120 s cutoff. -/
def ruleC3 : Rule := { ruleCpu with evaluation_interval := 30 }

def c3Start : Sys := emptySysWith [cpuM 85 0] [] [ruleC3] [mach1]

/-- The row `_create_alert` stores at t = 0 in scenario 1. -/
def firedAlert : AlertRec :=
  { alert_id := 1, rule_id := 1, machine_id := 1, severity := AlertSeverity.high,
    status := AlertStatus.active, metric_type := MetricType.cpu_usage,
    current_value := Val.num 85, threshold_value := 80, triggered_at := 0,
    acknowledged_at := none, resolved_at := none, acknowledged_by := none,
    resolved_by := none, notes := none }

/-- Scenario-1 state right after the t = 0 firing (cooldown until 300). -/
def c4St : Sys :=
  { metrics := [cpuM 85 0, cpuM 90 15], alerts := [firedAlert],
    rules := [ruleCpu], machines := [mach1],
    last_evaluations := [(1, 0)], cooldown_periods := [(1, 300)],
    next_alert_id := 2 }

def c5Start : Sys := emptySysWith [cpuM 85 0] [] [ruleCpu] [mach1]

/-- Scenario-1 state after the t = 0 firing plus the clearing sample
`cpu_usage = 60` ingested at t = 10. -/
def c5Mid : Sys :=
  { evaluateRule c5Start ruleCpu 0 with
      metrics := (evaluateRule c5Start ruleCpu 0).metrics ++ [cpuM 60 10] }

/-- Scenario-1 state after the cooldown expired, with a fresh clearing
sample `cpu_usage = 60` at t = 310. -/
def c5Post : Sys :=
  { evaluateRule c5Start ruleCpu 0 with
      metrics := (evaluateRule c5Start ruleCpu 0).metrics ++ [cpuM 60 310] }

def ackedAlert : AlertRec :=
  { firedAlert with status := AlertStatus.acknowledged,
                    acknowledged_at := some 5, acknowledged_by := some ("op") }

/-- A rule with an acknowledged (but no active) alert, a fresh violating
sample, and no cooldown/interval block. -/
def c6St : Sys :=
  { metrics := [cpuM 90 400], alerts := [ackedAlert], rules := [ruleCpu],
    machines := [mach1], last_evaluations := [], cooldown_periods := [],
    next_alert_id := 2 }

def resolvedAlert : AlertRec :=
  { firedAlert with status := AlertStatus.resolved,
                    resolved_at := some 50, resolved_by := some ("op") }

def c7St : Sys := emptySysWith [] [resolvedAlert] [ruleCpu] [mach1]

/-- `PUT /alerts/1` body requesting `status=active` on a resolved alert. -/
def c7Upd : AlertUpdate :=
  { status := some AlertStatus.active, acknowledged_by := none,
    resolved_by := none, notes := none }

def c2St : Sys := emptySysWith [] [] [] [mach1]

/-- Concrete scenario 2: `[{memory_usage, NaN}, {disk_usage, 55, "%"}]`. -/
def c2Batch : MetricsBatch :=
  { machine_id := 1
    metrics :=
      [{ metric_type := MetricType.memory_usage, component_name := none,
         value := Val.nan, unit := none },
       { metric_type := MetricType.disk_usage, component_name := none,
         value := Val.num 55, unit := some ("%") }]
    timestamp := some 1000 }

def c2NanRec : Metric :=
  { machine_id := 1, metric_type := MetricType.memory_usage,
    component_name := none, value := Val.nan, unit := none, timestamp := 1000 }

def c2DiskRec : Metric :=
  { machine_id := 1, metric_type := MetricType.disk_usage,
    component_name := none, value := Val.num 55, unit := some ("%"),
    timestamp := 1000 }

def c2After : Sys :=
  { metrics := [c2NanRec, c2DiskRec], alerts := [], rules := [],
    machines := [{ mach1 with last_seen := some 1000,
                              last_metrics_update := some 1000 }],
    last_evaluations := [], cooldown_periods := [], next_alert_id := 1 }

/-- Two dashboard clients; sends to `"b"` fail. -/
def ws8 : WsState :=
  { active_connections := [("a", 1), ("b", 2)]
    client_types := [("a", "dashboard"), ("b", "dashboard")]
    last_seen := [("a", 0), ("b", 0)] }

def ws8fail : String → Bool := fun c => decide (c = ("b"))

def ws9 : WsState :=
  { active_connections := [("a", 1)]
    client_types := [("a", "dashboard")]
    last_seen := [("a", 7)] }

/-- A store with one 40-day-old and one 5-day-old sample, viewed at
`now = 45` days. -/
def c10St : Sys :=
  emptySysWith [cpuM 85 (86400 * 5), cpuM 90 (86400 * 40)] [] [ruleCpu] [mach1]

/-! ## Theorems -/

/-! ### General list lemmas -/

theorem length_filter_split {α : Type} (p : α → Bool) (l : List α) :
    l.length = (l.filter p).length + (l.filter (fun x => !(p x))).length := by
  induction l with
  | nil => rfl
  | cons x xs ih =>
      by_cases hx : p x = true <;>
        simp [List.filter_cons, hx, ih] <;> omega

theorem mem_updateFirst {α : Type} (p : α → Bool) (f : α → α) (l : List α)
    (b : α) (h : b ∈ updateFirst p f l) :
    b ∈ l ∨ ∃ a, a ∈ l ∧ p a = true ∧ b = f a := by
  induction l with
  | nil => simp [updateFirst] at h
  | cons x xs ih =>
      unfold updateFirst at h
      by_cases hx : p x = true
      · rw [if_pos hx] at h
        rcases List.mem_cons.mp h with h1 | h1
        · exact Or.inr ⟨x, List.mem_cons_self x xs, hx, h1⟩
        · exact Or.inl (List.mem_cons_of_mem x h1)
      · rw [if_neg hx] at h
        rcases List.mem_cons.mp h with h1 | h1
        · exact Or.inl (h1 ▸ List.mem_cons_self x xs)
        · rcases ih h1 with h2 | ⟨a, ha, hpa, hb⟩
          · exact Or.inl (List.mem_cons_of_mem x h2)
          · exact Or.inr ⟨a, List.mem_cons_of_mem x ha, hpa, hb⟩

/-! ### C10: retention cleanup -/

/-- C10: with `dry_run=true` the cleanup returns the count of metrics
strictly older than `now − days` and changes nothing; with
`dry_run=false` it deletes exactly those metrics (rows at or after the
cutoff survive, nothing outside the metrics table is touched) and
returns the same count. -/
theorem c10_cleanup_spec (s : Sys) (days : ℕ) (now : ℤ)
    (hd1 : 1 ≤ days) (hd2 : days ≤ 365) :
    (cleanupOldMetrics s days true now).1 = s ∧
    (cleanupOldMetrics s days true now).2 =
      (s.metrics.filter
        (fun m => decide (m.timestamp < now - 86400 * (days : ℤ)))).length ∧
    (∀ m ∈ s.metrics, ¬ m.timestamp < now - 86400 * (days : ℤ) →
        m ∈ (cleanupOldMetrics s days false now).1.metrics) ∧
    (∀ m ∈ (cleanupOldMetrics s days false now).1.metrics,
        m ∈ s.metrics ∧ ¬ m.timestamp < now - 86400 * (days : ℤ)) ∧
    (cleanupOldMetrics s days false now).2 =
      (cleanupOldMetrics s days true now).2 ∧
    (cleanupOldMetrics s days false now).1.alerts = s.alerts ∧
    (cleanupOldMetrics s days false now).1.rules = s.rules ∧
    (cleanupOldMetrics s days false now).1.machines = s.machines ∧
    s.metrics.length =
      (cleanupOldMetrics s days false now).1.metrics.length +
        (cleanupOldMetrics s days false now).2 := by
  refine ⟨rfl, rfl, ?_, ?_, ?_, ?_, ?_, ?_, ?_⟩
  · intro m hm hts
    simp only [cleanupOldMetrics]
    refine List.mem_filter.mpr ⟨hm, ?_⟩
    simp [hts]
  · intro m hm
    simp only [cleanupOldMetrics] at hm
    have h2 := List.mem_filter.mp hm
    refine ⟨h2.1, ?_⟩
    have h3 := h2.2
    simp at h3
    simpa using h3
  · simp [cleanupOldMetrics]
  · simp [cleanupOldMetrics]
  · simp [cleanupOldMetrics]
  · simp [cleanupOldMetrics]
  · have h := length_filter_split
      (fun m => decide (m.timestamp < now - 86400 * (days : ℤ))) s.metrics
    simp only [cleanupOldMetrics, Bool.false_eq_true, if_false]
    omega

/-- C10 witness: the theorem at a concrete store (`days = 30`,
`now = 45 days`): the 40-day-old metric is counted and deleted, the
5-day-old one survives. -/
theorem c10_cleanup_spec_witness :
    (1 ≤ 30 ∧ 30 ≤ 365) ∧
    ((cleanupOldMetrics c10St 30 true (86400 * 45)).1 = c10St ∧
      (cleanupOldMetrics c10St 30 true (86400 * 45)).2 =
        (c10St.metrics.filter
          (fun m => decide (m.timestamp < 86400 * 45 - 86400 * (30 : ℤ)))).length ∧
      (∀ m ∈ c10St.metrics, ¬ m.timestamp < 86400 * 45 - 86400 * (30 : ℤ) →
          m ∈ (cleanupOldMetrics c10St 30 false (86400 * 45)).1.metrics) ∧
      (∀ m ∈ (cleanupOldMetrics c10St 30 false (86400 * 45)).1.metrics,
          m ∈ c10St.metrics ∧ ¬ m.timestamp < 86400 * 45 - 86400 * (30 : ℤ)) ∧
      (cleanupOldMetrics c10St 30 false (86400 * 45)).2 =
        (cleanupOldMetrics c10St 30 true (86400 * 45)).2 ∧
      (cleanupOldMetrics c10St 30 false (86400 * 45)).1.alerts = c10St.alerts ∧
      (cleanupOldMetrics c10St 30 false (86400 * 45)).1.rules = c10St.rules ∧
      (cleanupOldMetrics c10St 30 false (86400 * 45)).1.machines = c10St.machines ∧
      c10St.metrics.length =
        (cleanupOldMetrics c10St 30 false (86400 * 45)).1.metrics.length +
          (cleanupOldMetrics c10St 30 false (86400 * 45)).2) :=
  ⟨⟨by decide, by decide⟩, c10_cleanup_spec c10St 30 (86400 * 45) (by decide) (by decide)⟩

/-! ### C4: cooldown enforcement -/

/-- C4: while the cooldown entry set at alert creation (`t0 +
cooldown_period`) is still in the future, `_evaluate_rule` returns
before doing anything, so no new alert is created strictly inside
`(t0, t0 + C)`; and no resolution path touches `cooldown_periods`:
neither the operator endpoints (`update_alert`, `bulk_resolve`) nor the
engine's auto-resolve branch, so a resolve never resets or ends the
cooldown early. -/
theorem c4_cooldown_enforcement (s : Sys) (rule : Rule) (t0 t : ℤ)
    (hcd : dlookup s.cooldown_periods rule.id = some (t0 + rule.cooldown_period))
    (h1 : t0 < t) (h2 : t < t0 + rule.cooldown_period) :
    evaluateRule s rule t = s ∧
    (∀ aid u t' user,
        (updateAlertApi s aid u t' user).cooldown_periods = s.cooldown_periods) ∧
    (∀ ids notes t' user,
        (bulkResolve s ids notes t' user).cooldown_periods = s.cooldown_periods) ∧
    (∀ s' now' m, cooldownBlocked s' rule.id now' = false →
        intervalBlocked s' rule now' = false →
        latestMetric s'.metrics rule.machine_id rule.metric_type = some m →
        tdSeconds now' m.timestamp ≤ 120 →
        evalCondition m.value rule.threshold_value rule.comparison_operator = false →
        (evaluateRule s' rule now').cooldown_periods = s'.cooldown_periods) := by
  refine ⟨?_, fun _ _ _ _ => rfl, fun _ _ _ _ => rfl, ?_⟩
  · have hb : cooldownBlocked s rule.id t = true := by
      simp [cooldownBlocked, hcd, h2]
    simp [evaluateRule, hb]
  · intro s' now' m hcb hib hm hfresh hclear
    have hst : ¬ tdSeconds now' m.timestamp > 120 := not_lt.mpr hfresh
    simp [evaluateRule, hcb, hib, hm, hst, hclear, autoResolveState, recordEval]

/-- C4 witness: scenario 1 — the alert fired at `t0 = 0` with a 300 s
cooldown; at `t = 20` the evaluation is a no-op and the operator resolve
endpoints leave the cooldown map unchanged. -/
theorem c4_cooldown_enforcement_witness :
    (dlookup c4St.cooldown_periods ruleCpu.id =
        some (0 + ruleCpu.cooldown_period) ∧
      (0 : ℤ) < 20 ∧ (20 : ℤ) < 0 + ruleCpu.cooldown_period) ∧
    (evaluateRule c4St ruleCpu 20 = c4St ∧
      (∀ aid u t' user,
          (updateAlertApi c4St aid u t' user).cooldown_periods =
            c4St.cooldown_periods) ∧
      (∀ ids notes t' user,
          (bulkResolve c4St ids notes t' user).cooldown_periods =
            c4St.cooldown_periods) ∧
      (∀ s' now' m, cooldownBlocked s' ruleCpu.id now' = false →
          intervalBlocked s' ruleCpu now' = false →
          latestMetric s'.metrics ruleCpu.machine_id ruleCpu.metric_type = some m →
          tdSeconds now' m.timestamp ≤ 120 →
          evalCondition m.value ruleCpu.threshold_value
            ruleCpu.comparison_operator = false →
          (evaluateRule s' ruleCpu now').cooldown_periods =
            s'.cooldown_periods)) :=
  ⟨⟨by decide, by decide, by decide⟩,
   c4_cooldown_enforcement c4St ruleCpu 0 20 (by decide) (by decide) (by decide)⟩

/-! ### C3: staleness skip -/

/-- C3 counterexample: for `ruleC3` (`evaluation_interval = 30`) and a
sample 100 s old — strictly older than `2 × evaluation_interval = 60` —
the engine does NOT skip: it compares against the threshold and creates
an alert, because the code's staleness cutoff is the hard-coded 120 s,
not `2 × evaluation_interval`. -/
theorem c3_staleness_counterexample :
    2 * ruleC3.evaluation_interval < tdSeconds 100 ((cpuM 85 0).timestamp) ∧
    latestMetric c3Start.metrics ruleC3.machine_id ruleC3.metric_type =
      some (cpuM 85 0) ∧
    c3Start.alerts = [] ∧
    ((evaluateRule c3Start ruleC3 100).alerts.map AlertRec.status) =
      [AlertStatus.active] := by decide

/-- C3 amended: the staleness cutoff is the fixed 120 seconds of
`alert_manager.py` line 111 (measured as the Python `timedelta.seconds`
component of the sample age, i.e. mod 86400), independent of the rule's
`evaluation_interval`: whenever the latest matching sample's age exceeds
it, evaluation leaves the whole state unchanged — no comparison, no
alert creation, no resolution. -/
theorem c3_staleness_fixed_cutoff (s : Sys) (rule : Rule) (now : ℤ)
    (m : Metric)
    (hm : latestMetric s.metrics rule.machine_id rule.metric_type = some m)
    (hstale : tdSeconds now m.timestamp > 120) :
    evaluateRule s rule now = s := by
  unfold evaluateRule
  split
  · rfl
  · split
    · rfl
    · simp only [hm]
      rw [if_pos hstale]

/-- C3 witness: the same rule and sample, evaluated at `t = 130`
(age 130 s > 120 s): the evaluation is a no-op. -/
theorem c3_staleness_fixed_cutoff_witness :
    (latestMetric c3Start.metrics ruleC3.machine_id ruleC3.metric_type =
        some (cpuM 85 0) ∧
      tdSeconds 130 ((cpuM 85 0).timestamp) > 120) ∧
    evaluateRule c3Start ruleC3 130 = c3Start :=
  ⟨⟨by decide, by decide⟩,
   c3_staleness_fixed_cutoff c3Start ruleC3 130 (cpuM 85 0) (by decide) (by decide)⟩

/-! ### C5: auto-resolution -/

theorem autoResolve_mem (l : List AlertRec) (rid : ℕ) (now : ℤ)
    (h : hasActiveAlert l rid = true) :
    ∃ b ∈ autoResolve l rid now,
      b.rule_id = rid ∧ b.status = AlertStatus.resolved ∧
      b.resolved_at = some now ∧ b.resolved_by = some ("system") := by
  induction l with
  | nil => simp [hasActiveAlert] at h
  | cons a l ih =>
      unfold autoResolve updateFirst
      by_cases ha : a.rule_id = rid ∧ a.status = AlertStatus.active
      · rw [if_pos (decide_eq_true ha)]
        exact ⟨_, List.mem_cons_self _ _, ha.1, rfl, rfl, rfl⟩
      · rw [if_neg (by simpa using ha)]
        have h' : hasActiveAlert l rid = true := by
          simp only [hasActiveAlert, List.any_cons, Bool.or_eq_true,
            decide_eq_true_eq] at h
          rcases h with h | h
          · exact absurd h ha
          · simpa [hasActiveAlert] using h
        rcases ih h' with ⟨b, hb, hprops⟩
        exact ⟨b, List.mem_cons_of_mem a hb, hprops⟩

/-- C5 counterexample: concrete scenario 1 — after the alert fires at
t = 0 (cooldown until 300) and the clearing sample `cpu_usage = 60`
arrives at t = 10, the evaluation at t = 10 returns inside the cooldown
guard and the alert is NOT resolved: the state is unchanged and the
alert is still active, contradicting the claim's concrete scenario. -/
theorem c5_counterexample :
    c5Mid.cooldown_periods = [(1, 300)] ∧
    (c5Mid.alerts.map AlertRec.status) = [AlertStatus.active] ∧
    latestMetric c5Mid.metrics ruleCpu.machine_id ruleCpu.metric_type =
      some (cpuM 60 10) ∧
    evalCondition (Val.num 60) ruleCpu.threshold_value
      ruleCpu.comparison_operator = false ∧
    evaluateRule c5Mid ruleCpu 10 = c5Mid ∧
    ((evaluateRule c5Mid ruleCpu 10).alerts.map AlertRec.status) =
      [AlertStatus.active] := by decide

/-- C5 amended: when the engine actually evaluates the rule (it is not
inside the cooldown window, not inside the evaluation interval, and a
fresh matching sample exists) and the condition has cleared while an
active alert exists, that alert transitions to resolved with
`resolved_by="system"` and `resolved_at = now`. In scenario 1 this does
NOT happen at the t = 10 ingest (the cooldown from the t = 0 firing also
suppresses auto-resolution); it happens at the first real evaluation
after cooldown expiry with a fresh clearing sample. -/
theorem c5_auto_resolution (s : Sys) (rule : Rule) (now : ℤ) (m : Metric)
    (hcb : cooldownBlocked s rule.id now = false)
    (hib : intervalBlocked s rule now = false)
    (hm : latestMetric s.metrics rule.machine_id rule.metric_type = some m)
    (hfresh : tdSeconds now m.timestamp ≤ 120)
    (hclear : evalCondition m.value rule.threshold_value
        rule.comparison_operator = false)
    (hact : hasActiveAlert s.alerts rule.id = true) :
    ∃ b ∈ (evaluateRule s rule now).alerts,
      b.rule_id = rule.id ∧ b.status = AlertStatus.resolved ∧
      b.resolved_at = some now ∧ b.resolved_by = some ("system") := by
  have hst : ¬ tdSeconds now m.timestamp > 120 := not_lt.mpr hfresh
  have halerts : (evaluateRule s rule now).alerts =
      autoResolve s.alerts rule.id now := by
    simp [evaluateRule, hcb, hib, hm, hst, hclear, autoResolveState, recordEval]
  rw [halerts]
  exact autoResolve_mem s.alerts rule.id now hact

/-- C5 witness: scenario 1 continued past the cooldown — at t = 320,
with the fresh clearing sample `cpu_usage = 60` at t = 310, the t = 0
alert is resolved by the system. -/
theorem c5_auto_resolution_witness :
    (cooldownBlocked c5Post ruleCpu.id 320 = false ∧
      intervalBlocked c5Post ruleCpu 320 = false ∧
      latestMetric c5Post.metrics ruleCpu.machine_id ruleCpu.metric_type =
        some (cpuM 60 310) ∧
      tdSeconds 320 ((cpuM 60 310).timestamp) ≤ 120 ∧
      evalCondition (cpuM 60 310).value ruleCpu.threshold_value
        ruleCpu.comparison_operator = false ∧
      hasActiveAlert c5Post.alerts ruleCpu.id = true) ∧
    ∃ b ∈ (evaluateRule c5Post ruleCpu 320).alerts,
      b.rule_id = ruleCpu.id ∧ b.status = AlertStatus.resolved ∧
      b.resolved_at = some 320 ∧ b.resolved_by = some ("system") :=
  ⟨⟨by decide, by decide, by decide, by decide, by decide, by decide⟩,
   c5_auto_resolution c5Post ruleCpu 320 (cpuM 60 310) (by decide) (by decide)
     (by decide) (by decide) (by decide) (by decide)⟩

/-! ### C6: acknowledged alerts and re-creation -/

/-- C6 counterexample: a rule with an acknowledged alert and no active
one, a fresh violating sample, and no cooldown/interval block — the
engine creates a second alert (the existing-alert query filters on
`status == ACTIVE` only), contradicting the claim that an acknowledged
alert blocks creation. -/
theorem c6_counterexample :
    (c6St.alerts.map (fun a => (a.rule_id, a.status))) =
      [(1, AlertStatus.acknowledged)] ∧
    hasActiveAlert c6St.alerts ruleCpu.id = false ∧
    ((evaluateRule c6St ruleCpu 410).alerts.map
        (fun a => (a.rule_id, a.status))) =
      [(1, AlertStatus.acknowledged), (1, AlertStatus.active)] := by decide

/-- C6 amended: only an alert in `status=active` blocks creation. When a
violation is detected (evaluation not blocked, sample fresh, condition
met), no active alert exists for the rule, and the rule's machine
exists, the engine appends a new active alert even if an acknowledged
alert for that rule is present. -/
theorem c6_acknowledged_does_not_block (s : Sys) (rule : Rule) (now : ℤ)
    (m : Metric)
    (hcb : cooldownBlocked s rule.id now = false)
    (hib : intervalBlocked s rule now = false)
    (hm : latestMetric s.metrics rule.machine_id rule.metric_type = some m)
    (hfresh : tdSeconds now m.timestamp ≤ 120)
    (hviol : evalCondition m.value rule.threshold_value
        rule.comparison_operator = true)
    (hnoact : hasActiveAlert s.alerts rule.id = false)
    (hmach : ∃ mc, s.machines.find?
        (fun mc => decide (mc.id = rule.machine_id)) = some mc)
    (hack : ∃ a ∈ s.alerts,
        a.rule_id = rule.id ∧ a.status = AlertStatus.acknowledged) :
    ∃ b, (evaluateRule s rule now).alerts = s.alerts ++ [b] ∧
      b.status = AlertStatus.active ∧ b.rule_id = rule.id := by
  obtain ⟨mc, hmc⟩ := hmach
  have hst : ¬ tdSeconds now m.timestamp > 120 := not_lt.mpr hfresh
  refine ⟨newAlert (recordEval s rule.id now) rule m now, ?_, rfl, rfl⟩
  simp [evaluateRule, hcb, hib, hm, hst, hviol, hnoact, startCooldown,
    createAlert, recordEval, hmc]

/-- C6 witness: the amended theorem at the concrete acknowledged-alert
state (`c6St`, evaluation at t = 410 with the violating sample
`cpu_usage = 90` at t = 400). -/
theorem c6_acknowledged_does_not_block_witness :
    (cooldownBlocked c6St ruleCpu.id 410 = false ∧
      intervalBlocked c6St ruleCpu 410 = false ∧
      latestMetric c6St.metrics ruleCpu.machine_id ruleCpu.metric_type =
        some (cpuM 90 400) ∧
      tdSeconds 410 ((cpuM 90 400).timestamp) ≤ 120 ∧
      evalCondition (cpuM 90 400).value ruleCpu.threshold_value
        ruleCpu.comparison_operator = true ∧
      hasActiveAlert c6St.alerts ruleCpu.id = false ∧
      (∃ a ∈ c6St.alerts,
          a.rule_id = ruleCpu.id ∧ a.status = AlertStatus.acknowledged)) ∧
    ∃ b, (evaluateRule c6St ruleCpu 410).alerts = c6St.alerts ++ [b] ∧
      b.status = AlertStatus.active ∧ b.rule_id = ruleCpu.id :=
  ⟨⟨by decide, by decide, by decide, by decide, by decide, by decide,
    ⟨ackedAlert, by decide, by decide, by decide⟩⟩,
   c6_acknowledged_does_not_block c6St ruleCpu 410 (cpuM 90 400)
     (by decide) (by decide) (by decide) (by decide) (by decide) (by decide)
     ⟨mach1, by decide⟩
     ⟨ackedAlert, by decide, by decide, by decide⟩⟩

/-! ### C2: batch ingestion -/

/-- C2 counterexample: concrete scenario 2 — the batch
`[{memory_usage, NaN}, {disk_usage, 55, "%"}]` for a known machine is
stored in full: both records are persisted (2, not N − 1 = 1), the
NaN-valued record included, and the response is the list of created
rows, not a per-record outcome list (no `InvalidSample` exists in the
code). The latest stored `disk_usage` is indeed 55. -/
theorem c2_counterexample :
    submitMetricsBatch c2St c2Batch 1000 =
      Except.ok (c2After, [c2NanRec, c2DiskRec]) ∧
    c2After.metrics.length = c2Batch.metrics.length ∧
    c2NanRec ∈ c2After.metrics ∧ c2NanRec.value = Val.nan ∧
    latestMetric c2After.metrics 1 MetricType.disk_usage = some c2DiskRec ∧
    c2DiskRec.value = Val.num 55 :=
  ⟨rfl, by decide, by decide, by decide, by decide, by decide⟩

/-- C2 amended: for a known machine, `submit_metrics_batch` persists
every record of the batch unvalidated (non-finite values and arbitrary
units included), updates the machine watermark, and returns the created
rows; nothing else changes. There is no per-record outcome list and no
`InvalidSample` rejection. -/
theorem c2_batch_ingest_no_validation (s : Sys) (b : MetricsBatch) (now : ℤ)
    (mc : Machine)
    (hm : s.machines.find? (fun x => decide (x.id = b.machine_id)) = some mc) :
    ∃ s' recs, submitMetricsBatch s b now = Except.ok (s', recs) ∧
      recs = b.metrics.map (mkBatchMetric b.machine_id (b.timestamp.getD now)) ∧
      s'.metrics = s.metrics ++ recs ∧
      recs.length = b.metrics.length ∧
      s'.alerts = s.alerts ∧ s'.rules = s.rules ∧
      s'.machines = s.machines.map (fun x =>
        if x.id = b.machine_id then
          { x with last_seen := some (b.timestamp.getD now),
                   last_metrics_update := some (b.timestamp.getD now) }
        else x) := by
  simp only [submitMetricsBatch, hm]
  exact ⟨_, _, rfl, rfl, rfl, by simp, rfl, rfl, rfl⟩

/-- C2 witness: the amended theorem at the concrete scenario-2 batch. -/
theorem c2_batch_ingest_no_validation_witness :
    (c2St.machines.find? (fun x => decide (x.id = c2Batch.machine_id)) =
        some mach1) ∧
    (∃ s' recs, submitMetricsBatch c2St c2Batch 1000 = Except.ok (s', recs) ∧
      recs = c2Batch.metrics.map
        (mkBatchMetric c2Batch.machine_id (c2Batch.timestamp.getD 1000)) ∧
      s'.metrics = c2St.metrics ++ recs ∧
      recs.length = c2Batch.metrics.length ∧
      s'.alerts = c2St.alerts ∧ s'.rules = c2St.rules ∧
      s'.machines = c2St.machines.map (fun x =>
        if x.id = c2Batch.machine_id then
          { x with last_seen := some (c2Batch.timestamp.getD 1000),
                   last_metrics_update := some (c2Batch.timestamp.getD 1000) }
        else x)) :=
  ⟨by decide, c2_batch_ingest_no_validation c2St c2Batch 1000 mach1 (by decide)⟩

/-! ### C1: the dedup invariant -/

theorem countActive_append (l l' : List AlertRec) (r : ℕ) :
    countActive (l ++ l') r = countActive l r + countActive l' r := by
  simp [countActive, List.filter_append]

theorem countActive_eq_zero_of_not_active {l : List AlertRec} {r : ℕ}
    (h : hasActiveAlert l r = false) : countActive l r = 0 := by
  induction l with
  | nil => rfl
  | cons a l ih =>
      unfold hasActiveAlert at h
      rw [List.any_cons] at h
      obtain ⟨hpa, hrest⟩ := Bool.or_eq_false_iff.mp h
      have ih' := ih hrest
      unfold countActive at ih' ⊢
      rw [List.filter_cons, hpa, if_neg Bool.false_ne_true]
      exact ih'

theorem countActive_singleton_le (a : AlertRec) (r : ℕ) :
    countActive [a] r ≤ 1 := by
  by_cases hq : a.rule_id = r ∧ a.status = AlertStatus.active
  · simp [countActive, List.filter_cons, hq]
  · simp [countActive, List.filter_cons, hq]

theorem countP_updateFirst_le (p q : AlertRec → Bool) (f : AlertRec → AlertRec)
    (hf : ∀ a, p a = true → q (f a) = false) (l : List AlertRec) :
    (List.filter q (updateFirst p f l)).length ≤ (List.filter q l).length := by
  induction l with
  | nil => simp [updateFirst]
  | cons a l ih =>
      unfold updateFirst
      by_cases hp : p a = true
      · rw [if_pos hp]
        rw [List.filter_cons, List.filter_cons, hf a hp]
        by_cases hq : q a = true
        · simp only [hq, if_true, Bool.false_eq_true, if_false,
            List.length_cons]
          omega
        · simp only [hq, if_false, Bool.false_eq_true]
          exact Nat.le_refl _
      · rw [if_neg hp]
        rw [List.filter_cons, List.filter_cons]
        by_cases hq : q a = true
        · simp only [hq, if_true, List.length_cons]
          omega
        · simp only [hq, if_false]
          exact ih

theorem countActive_autoResolve_le (l : List AlertRec) (rid : ℕ) (now : ℤ)
    (r : ℕ) : countActive (autoResolve l rid now) r ≤ countActive l r := by
  have hle := countP_updateFirst_le
    (fun a => decide (a.rule_id = rid ∧ a.status = AlertStatus.active))
    (fun a => decide (a.rule_id = r ∧ a.status = AlertStatus.active))
    (fun a =>
      { a with status := AlertStatus.resolved
               resolved_at := some now
               resolved_by := some ("system")
               notes := some ("Auto-resolved: condition no longer met") })
    (by intro a hpa; simp) l
  simpa [countActive, autoResolve] using hle

theorem createAlert_preserves_dedup (s : Sys) (rule : Rule) (m : Metric)
    (now : ℤ) (hnoact : hasActiveAlert s.alerts rule.id = false)
    (h : dedupInv s.alerts) : dedupInv (createAlert s rule m now).alerts := by
  unfold createAlert
  cases hfind : s.machines.find? (fun mc => decide (mc.id = rule.machine_id)) with
  | none => simp only [hfind]; exact h
  | some mc =>
      simp only [hfind]
      intro r
      show countActive (s.alerts ++ [newAlert s rule m now]) r ≤ 1
      rw [countActive_append]
      by_cases hr : r = rule.id
      · have h0 : countActive s.alerts r = 0 := by
          rw [hr]; exact countActive_eq_zero_of_not_active hnoact
        have h1 := countActive_singleton_le (newAlert s rule m now) r
        omega
      · have h1 : countActive [newAlert s rule m now] r = 0 := by
          simp only [countActive, List.filter_cons, newAlert]
          simp [show ¬ rule.id = r from fun hc => hr hc.symm]
        have h2 := h r
        omega

theorem evaluateRule_preserves_dedup (s : Sys) (rule : Rule) (now : ℤ)
    (h : dedupInv s.alerts) : dedupInv (evaluateRule s rule now).alerts := by
  unfold evaluateRule
  split
  · exact h
  split
  · exact h
  split
  · exact h
  rename_i m hm
  split
  · exact h
  split
  · split
    · exact h
    · rename_i hnoact
      have hnoact' : hasActiveAlert s.alerts rule.id = false := by
        simpa using hnoact
      exact createAlert_preserves_dedup (recordEval s rule.id now) rule
        m now hnoact' h
  · intro r
    exact le_trans (countActive_autoResolve_le s.alerts rule.id now r) (h r)

/-- C1 amended: every state reachable from a dedup-consistent state by
engine rule evaluations alone still satisfies the at-most-one-active-
alert-per-rule invariant; the `POST /alerts` endpoint, however, inserts
an active alert with no dedup check and can break it (see the
counterexample). -/
theorem c1_dedup_eval_reachable (s t : Sys)
    (hreach : Relation.ReflTransGen EvalStep s t)
    (hs : dedupInv s.alerts) : dedupInv t.alerts := by
  induction hreach with
  | refl => exact hs
  | tail h1 h2 ih =>
      cases h2 with
      | eval rule now hmem hen =>
          exact evaluateRule_preserves_dedup _ rule now ih

/-- C1 witness: one engine evaluation step from the empty-alert scenario
state keeps the invariant. -/
theorem c1_dedup_eval_reachable_witness :
    dedupInv c1Start.alerts ∧
    dedupInv (evaluateRule c1Start ruleCpu 0).alerts :=
  ⟨fun _ => Nat.zero_le 1,
   c1_dedup_eval_reachable c1Start (evaluateRule c1Start ruleCpu 0)
     (Relation.ReflTransGen.single
       (EvalStep.eval c1Start ruleCpu 0 (List.mem_cons_self _ _) rfl))
     (fun _ => Nat.zero_le 1)⟩

/-- C1 counterexample: two `POST /alerts` creations for the same rule —
a legal sequence of the claim's "alert-creation operations" — reach a
state with two active alerts for rule 1, so the invariant does not hold
at every reachable state once API alert creation is included. -/
theorem c1_counterexample :
    Relation.ReflTransGen Step c1Start c1Bad ∧
    dedupInv c1Start.alerts ∧ ¬ dedupInv c1Bad.alerts := by
  refine ⟨?_, fun _ => Nat.zero_le 1, ?_⟩
  · exact Relation.ReflTransGen.tail
      (Relation.ReflTransGen.single (Step.create c1Start c1Req 0))
      (Step.create (apiCreateAlert c1Start c1Req 0) c1Req 0)
  · intro hd
    have h2 := hd 1
    have h3 : countActive c1Bad.alerts 1 = 2 := by decide
    omega

/-! ### C7: alert status transitions -/

theorem ackOne_mem (now : ℤ) (user : String) (notes : Option String)
    (l : List AlertRec) (aid : ℕ) (b : AlertRec)
    (hb : b ∈ ackOne now user notes l aid) :
    ∃ a ∈ l, a.alert_id = b.alert_id ∧
      (b.status = a.status ∨
        (a.status = AlertStatus.active ∧ b.status = AlertStatus.acknowledged)) := by
  rcases mem_updateFirst _ _ _ _ hb with h | ⟨a, ha, hpa, hfa⟩
  · exact ⟨b, h, rfl, Or.inl rfl⟩
  · subst hfa
    by_cases hact : a.status = AlertStatus.active
    · refine ⟨a, ha, ?_, Or.inr ⟨hact, ?_⟩⟩ <;> cases notes <;> simp [hact]
    · refine ⟨a, ha, ?_, Or.inl ?_⟩ <;> simp [hact]

theorem resolveOne_mem (now : ℤ) (user : String) (notes : Option String)
    (l : List AlertRec) (aid : ℕ) (b : AlertRec)
    (hb : b ∈ resolveOne now user notes l aid) :
    ∃ a ∈ l, a.alert_id = b.alert_id ∧
      (b.status = a.status ∨
        (a.status ≠ AlertStatus.resolved ∧ b.status = AlertStatus.resolved)) := by
  rcases mem_updateFirst _ _ _ _ hb with h | ⟨a, ha, hpa, hfa⟩
  · exact ⟨b, h, rfl, Or.inl rfl⟩
  · subst hfa
    by_cases hres : a.status = AlertStatus.resolved
    · refine ⟨a, ha, ?_, Or.inl ?_⟩ <;> simp [hres]
    · refine ⟨a, ha, ?_, Or.inr ⟨hres, ?_⟩⟩ <;> cases notes <;> simp [hres]

theorem bulkAck_status (now : ℤ) (user : String) (notes : Option String)
    (ids : List ℕ) :
    ∀ (l : List AlertRec) (b : AlertRec),
      b ∈ ids.foldl (ackOne now user notes) l →
      ∃ a ∈ l, a.alert_id = b.alert_id ∧
        (b.status = a.status ∨
          (a.status = AlertStatus.active ∧
            b.status = AlertStatus.acknowledged)) := by
  induction ids with
  | nil => exact fun l b hb => ⟨b, hb, rfl, Or.inl rfl⟩
  | cons i ids ih =>
      intro l b hb
      rcases ih (ackOne now user notes l i) b hb with ⟨a1, ha1, hid1, hst1⟩
      rcases ackOne_mem now user notes l i a1 ha1 with ⟨a, ha, hid, hst⟩
      refine ⟨a, ha, hid.trans hid1, ?_⟩
      rcases hst1 with h1 | ⟨h1a, h1b⟩
      · rcases hst with h2 | ⟨h2a, h2b⟩
        · exact Or.inl (h1.trans h2)
        · exact Or.inr ⟨h2a, h1.trans h2b⟩
      · rcases hst with h2 | ⟨h2a, h2b⟩
        · exact Or.inr ⟨h2.symm.trans h1a, h1b⟩
        · exact absurd (h2b.symm.trans h1a) (by decide)

theorem bulkResolve_status (now : ℤ) (user : String) (notes : Option String)
    (ids : List ℕ) :
    ∀ (l : List AlertRec) (b : AlertRec),
      b ∈ ids.foldl (resolveOne now user notes) l →
      ∃ a ∈ l, a.alert_id = b.alert_id ∧
        (b.status = a.status ∨
          (a.status ≠ AlertStatus.resolved ∧
            b.status = AlertStatus.resolved)) := by
  induction ids with
  | nil => exact fun l b hb => ⟨b, hb, rfl, Or.inl rfl⟩
  | cons i ids ih =>
      intro l b hb
      rcases ih (resolveOne now user notes l i) b hb with ⟨a1, ha1, hid1, hst1⟩
      rcases resolveOne_mem now user notes l i a1 ha1 with ⟨a, ha, hid, hst⟩
      refine ⟨a, ha, hid.trans hid1, ?_⟩
      rcases hst1 with h1 | ⟨h1a, h1b⟩
      · rcases hst with h2 | ⟨h2a, h2b⟩
        · exact Or.inl (h1.trans h2)
        · exact Or.inr ⟨h2a, h1.trans h2b⟩
      · rcases hst with h2 | ⟨h2a, h2b⟩
        · refine Or.inr ⟨?_, h1b⟩
          intro hc
          exact h1a (h2.trans hc)
        · exact absurd h2b (fun hc => h1a hc)

theorem mem_autoResolve (l : List AlertRec) (rid : ℕ) (now : ℤ)
    (b : AlertRec) (hb : b ∈ autoResolve l rid now) :
    b ∈ l ∨ ∃ a ∈ l, a.alert_id = b.alert_id ∧
      a.status = AlertStatus.active ∧ b.status = AlertStatus.resolved := by
  rcases mem_updateFirst _ _ _ _ hb with h | ⟨a, ha, hpa, hfa⟩
  · exact Or.inl h
  · have hp : a.rule_id = rid ∧ a.status = AlertStatus.active :=
      of_decide_eq_true hpa
    subst hfa
    exact Or.inr ⟨a, ha, rfl, hp.2, rfl⟩

/-- C7 amended: the bulk endpoints and the engine respect the state
machine — bulk-acknowledge performs only active→acknowledged,
bulk-resolve only (not-resolved)→resolved (note: that includes the
extra model status `suppressed`), and an engine evaluation either keeps
a status, performs active→resolved, or appends a freshly created active
alert. The single `PUT /alerts/\x7bid\x7d` endpoint, however, copies any
requested status verbatim, so resolved is NOT terminal under it (see
the counterexample). -/
theorem c7_status_transitions (s : Sys) (ids : List ℕ) (notes : Option String)
    (now : ℤ) (user : String) (rule : Rule) :
    (∀ b ∈ (bulkAcknowledge s ids notes now user).alerts, ∃ a ∈ s.alerts,
        a.alert_id = b.alert_id ∧
        (b.status = a.status ∨
          (a.status = AlertStatus.active ∧
            b.status = AlertStatus.acknowledged))) ∧
    (∀ b ∈ (bulkResolve s ids notes now user).alerts, ∃ a ∈ s.alerts,
        a.alert_id = b.alert_id ∧
        (b.status = a.status ∨
          (a.status ≠ AlertStatus.resolved ∧
            b.status = AlertStatus.resolved))) ∧
    (∀ b ∈ (evaluateRule s rule now).alerts,
        (∃ a ∈ s.alerts, a.alert_id = b.alert_id ∧
          (b.status = a.status ∨
            (a.status = AlertStatus.active ∧
              b.status = AlertStatus.resolved))) ∨
        b.status = AlertStatus.active) := by
  refine ⟨fun b hb => bulkAck_status now user notes ids s.alerts b hb,
          fun b hb => bulkResolve_status now user notes ids s.alerts b hb,
          ?_⟩
  intro b hb
  unfold evaluateRule at hb
  split at hb
  · exact Or.inl ⟨b, hb, rfl, Or.inl rfl⟩
  split at hb
  · exact Or.inl ⟨b, hb, rfl, Or.inl rfl⟩
  split at hb
  · exact Or.inl ⟨b, hb, rfl, Or.inl rfl⟩
  split at hb
  · exact Or.inl ⟨b, hb, rfl, Or.inl rfl⟩
  split at hb
  · split at hb
    · exact Or.inl ⟨b, hb, rfl, Or.inl rfl⟩
    · have hb' : b ∈ (createAlert (recordEval s rule.id now) rule _ now).alerts :=
        hb
      unfold createAlert at hb'
      split at hb'
      · exact Or.inl ⟨b, hb', rfl, Or.inl rfl⟩
      · rcases List.mem_append.mp hb' with h | h
        · exact Or.inl ⟨b, h, rfl, Or.inl rfl⟩
        · rcases List.mem_singleton.mp h with rfl
          exact Or.inr rfl
  · have hb' : b ∈ autoResolve s.alerts rule.id now := hb
    rcases mem_autoResolve s.alerts rule.id now b hb' with h | ⟨a, ha, hid, hact, hres⟩
    · exact Or.inl ⟨b, h, rfl, Or.inl rfl⟩
    · exact Or.inl ⟨a, ha, hid, Or.inr ⟨hact, hres⟩⟩

/-- C7 counterexample: `PUT /alerts/1` with body `status=active` on a
resolved alert moves it back to active — the `setattr` loop performs the
transition with no validation, so resolved is not terminal. -/
theorem c7_counterexample :
    (c7St.alerts.map AlertRec.status) = [AlertStatus.resolved] ∧
    ((updateAlertApi c7St 1 c7Upd 100 ("admin")).alerts.map AlertRec.status) =
      [AlertStatus.active] := by decide

/-! ### Dictionary lemmas for the WebSocket registries -/

theorem dcontains_iff {K V : Type} [DecidableEq K] (l : List (K × V)) (k : K) :
    dcontains l k = true ↔ k ∈ wkeys l := by
  unfold dcontains wkeys
  rw [List.any_eq_true]
  constructor
  · rintro ⟨p, hp, hpk⟩
    exact List.mem_map.mpr ⟨p, hp, of_decide_eq_true hpk⟩
  · intro h
    rcases List.mem_map.mp h with ⟨p, hp, hpk⟩
    exact ⟨p, hp, decide_eq_true hpk⟩

theorem mem_wkeys_dinsert {K V : Type} [DecidableEq K] (l : List (K × V))
    (k k' : K) (v : V) :
    k' ∈ wkeys (dinsert l k v) ↔ k' ∈ wkeys l ∨ k' = k := by
  unfold dinsert
  by_cases hc : dcontains l k = true
  · rw [if_pos hc]
    have hkeys : wkeys (l.map (fun p => if p.1 = k then (k, v) else p)) =
        wkeys l := by
      unfold wkeys
      rw [List.map_map]
      apply List.map_congr_left
      intro p hp
      by_cases hpk : p.1 = k
      · simp [hpk]
      · simp [hpk]
    rw [hkeys]
    constructor
    · exact Or.inl
    · rintro (h | rfl)
      · exact h
      · exact (dcontains_iff l k').mp hc
  · rw [if_neg hc]
    unfold wkeys
    rw [List.map_append]
    simp [List.mem_append]

theorem mem_wkeys_dremove {K V : Type} [DecidableEq K] (l : List (K × V))
    (k k' : K) :
    k' ∈ wkeys (dremove l k) ↔ k' ∈ wkeys l ∧ k' ≠ k := by
  unfold dremove wkeys
  constructor
  · intro h
    rcases List.mem_map.mp h with ⟨p, hp, hpk⟩
    obtain ⟨hpl, hcond⟩ := List.mem_filter.mp hp
    refine ⟨List.mem_map.mpr ⟨p, hpl, hpk⟩, ?_⟩
    intro hkk
    rw [← hpk] at hkk
    simp [hkk] at hcond
  · rintro ⟨h, hne⟩
    rcases List.mem_map.mp h with ⟨p, hp, hpk⟩
    refine List.mem_map.mpr ⟨p, List.mem_filter.mpr ⟨hp, ?_⟩, hpk⟩
    simp only [Bool.not_eq_eq_eq_not, Bool.not_true, decide_eq_false_iff_not]
    intro hc
    exact hne (hpk ▸ hc ▸ rfl)

theorem find?_map_insertFun {K V : Type} [DecidableEq K] (l : List (K × V))
    (k : K) (v : V) (hc : l.any (fun p => decide (p.1 = k)) = true) :
    (l.map (fun p => if p.1 = k then (k, v) else p)).find?
      (fun p => decide (p.1 = k)) = some (k, v) := by
  induction l with
  | nil => simp at hc
  | cons p l ih =>
      rw [List.map_cons]
      by_cases hpk : p.1 = k
      · rw [if_pos hpk]
        simp [List.find?]
      · rw [if_neg hpk]
        rw [List.any_cons] at hc
        have hc' : l.any (fun p => decide (p.1 = k)) = true := by
          rcases Bool.or_eq_true_iff.mp hc with h | h
          · exact absurd (of_decide_eq_true h) hpk
          · exact h
        rw [List.find?_cons_of_neg _ (by simpa using hpk)]
        exact ih hc'

theorem dlookup_dinsert_self {K V : Type} [DecidableEq K] (l : List (K × V))
    (k : K) (v : V) : dlookup (dinsert l k v) k = some v := by
  unfold dlookup dinsert
  by_cases hc : dcontains l k = true
  · rw [if_pos hc]
    unfold dcontains at hc
    rw [find?_map_insertFun l k v hc]
    rfl
  · rw [if_neg hc]
    have hnone : l.find? (fun p => decide (p.1 = k)) = none := by
      rw [List.find?_eq_none]
      intro x hx hpx
      exact hc (List.any_eq_true.mpr ⟨x, hx, hpx⟩)
    rw [List.find?_append, hnone]
    simp [List.find?]

/-! ### WebSocket registry lemmas -/

theorem wsDisconnect_active_sub (st : WsState) (c k : String)
    (h : k ∈ wkeys (wsDisconnect st c).active_connections) :
    k ∈ wkeys st.active_connections := by
  unfold wsDisconnect at h
  split at h
  · exact ((mem_wkeys_dremove _ _ _).mp h).1
  · exact h

theorem wsDisconnect_mem_other (st : WsState) (c k : String) (hne : k ≠ c) :
    (k ∈ wkeys (wsDisconnect st c).active_connections ↔
      k ∈ wkeys st.active_connections) := by
  unfold wsDisconnect
  split
  · rw [mem_wkeys_dremove]
    exact ⟨And.left, fun h => ⟨h, hne⟩⟩
  · exact Iff.rfl

theorem wsInv_disconnect (st : WsState) (c : String) (h : wsInv st) :
    wsInv (wsDisconnect st c) := by
  unfold wsDisconnect
  split
  · constructor
    · intro k
      rw [mem_wkeys_dremove, mem_wkeys_dremove]
      exact ⟨fun ⟨h1, h2⟩ => ⟨(h.1 k).mp h1, h2⟩,
             fun ⟨h1, h2⟩ => ⟨(h.1 k).mpr h1, h2⟩⟩
    · intro k
      rw [mem_wkeys_dremove, mem_wkeys_dremove]
      exact ⟨fun ⟨h1, h2⟩ => ⟨(h.2 k).mp h1, h2⟩,
             fun ⟨h1, h2⟩ => ⟨(h.2 k).mpr h1, h2⟩⟩
  · exact h

theorem wsInv_foldl_disconnect (L : List String) :
    ∀ st : WsState, wsInv st → wsInv (L.foldl wsDisconnect st) := by
  induction L with
  | nil => exact fun st h => h
  | cons c L ih => exact fun st h => ih _ (wsInv_disconnect st c h)

theorem foldl_disconnect_active_sub (L : List String) :
    ∀ (st : WsState) (k : String),
      k ∈ wkeys (L.foldl wsDisconnect st).active_connections →
      k ∈ wkeys st.active_connections := by
  induction L with
  | nil => exact fun st k h => h
  | cons c L ih => exact fun st k h => wsDisconnect_active_sub st c k (ih _ k h)

theorem foldl_disconnect_not_mem (L : List String) :
    ∀ (st : WsState) (k : String), k ∉ L →
      (k ∈ wkeys (L.foldl wsDisconnect st).active_connections ↔
        k ∈ wkeys st.active_connections) := by
  induction L with
  | nil => exact fun st k _ => Iff.rfl
  | cons c L ih =>
      intro st k hk
      have h1 : k ∉ L := fun h => hk (List.mem_cons_of_mem c h)
      have h2 : k ≠ c := fun h => hk (h ▸ List.mem_cons_self c L)
      exact (ih _ k h1).trans (wsDisconnect_mem_other st c k h2)

theorem eq_single_of_all_eq {α : Type} (l : List α) (c : α) (hnd : l.Nodup)
    (hall : ∀ x ∈ l, x = c) (hc : c ∈ l) : l = [c] := by
  cases l with
  | nil => cases hc
  | cons x xs =>
      have hx : x = c := hall x (List.mem_cons_self x xs)
      subst hx
      cases xs with
      | nil => rfl
      | cons y ys =>
          exfalso
          have hy : y = x :=
            hall y (List.mem_cons_of_mem _ (List.mem_cons_self y ys))
          have hnx : x ∉ y :: ys := (List.nodup_cons.mp hnd).1
          exact hnx (hy ▸ List.mem_cons_self y ys)

/-! ### C8: broadcast isolation -/

/-- C8: when exactly one connected subscriber's send fails during
`broadcast_message`, that subscriber is removed from the connection
registry and every other connected subscriber is sent the event exactly
once and stays registered. -/
theorem c8_broadcast_isolation (st : WsState) (f : String → Bool) (c : String)
    (hnd : (wkeys st.active_connections).Nodup)
    (hc : c ∈ wkeys st.active_connections)
    (hf : f c = true)
    (hothers : ∀ k ∈ wkeys st.active_connections, k ≠ c → f k = false) :
    c ∉ wkeys (wsBroadcastMessage st f).1.active_connections ∧
    (∀ k ∈ wkeys st.active_connections, k ≠ c →
      (wsBroadcastMessage st f).2.count k = 1 ∧
      k ∈ wkeys (wsBroadcastMessage st f).1.active_connections) := by
  have hdisc : (wkeys st.active_connections).filter (fun x => f x) = [c] := by
    apply eq_single_of_all_eq _ c (hnd.filter _)
    · intro x hx
      obtain ⟨hmem, hpx⟩ := List.mem_filter.mp hx
      by_contra hne
      rw [hothers x hmem hne] at hpx
      exact Bool.false_ne_true hpx
    · exact List.mem_filter.mpr ⟨hc, hf⟩
  constructor
  · show c ∉ wkeys
      (((wkeys st.active_connections).filter (fun x => f x)).foldl
        wsDisconnect st).active_connections
    rw [hdisc]
    show c ∉ wkeys (wsDisconnect st c).active_connections
    unfold wsDisconnect
    rw [if_pos ((dcontains_iff _ _).mpr hc)]
    intro hmem
    exact ((mem_wkeys_dremove _ _ _).mp hmem).2 rfl
  · intro k hk hne
    constructor
    · show ((wkeys st.active_connections).filter (fun x => !(f x))).count k = 1
      rw [List.count_filter (by simp [hothers k hk hne])]
      exact List.count_eq_one_of_mem hnd hk
    · show k ∈ wkeys
        (((wkeys st.active_connections).filter (fun x => f x)).foldl
          wsDisconnect st).active_connections
      rw [hdisc]
      exact (wsDisconnect_mem_other st c k hne).mpr hk

/-- C8 witness: two dashboard clients, the send to `"b"` fails — `"b"`
is deregistered, `"a"` receives exactly one copy and stays. -/
theorem c8_broadcast_isolation_witness :
    ((wkeys ws8.active_connections).Nodup ∧
      "b" ∈ wkeys ws8.active_connections ∧
      ws8fail ("b") = true ∧
      (∀ k ∈ wkeys ws8.active_connections, k ≠ "b" → ws8fail k = false)) ∧
    ("b" ∉ wkeys (wsBroadcastMessage ws8 ws8fail).1.active_connections ∧
      (∀ k ∈ wkeys ws8.active_connections, k ≠ "b" →
        (wsBroadcastMessage ws8 ws8fail).2.count k = 1 ∧
        k ∈ wkeys (wsBroadcastMessage ws8 ws8fail).1.active_connections)) :=
  ⟨⟨by decide, by decide, by decide, by decide⟩,
   c8_broadcast_isolation ws8 ws8fail "b" (by decide) (by decide) (by decide)
     (by decide)⟩

/-! ### C9: registry key-set consistency -/

theorem wsInv_insert (st : WsState) (h : wsInv st) (cid : String) (ws : ℕ)
    (ctype : String) (now : ℤ) :
    wsInv ⟨dinsert st.active_connections cid ws,
           dinsert st.client_types cid ctype,
           dinsert st.last_seen cid now⟩ := by
  constructor
  · intro k
    rw [mem_wkeys_dinsert, mem_wkeys_dinsert]
    exact or_congr_left (h.1 k)
  · intro k
    rw [mem_wkeys_dinsert, mem_wkeys_dinsert]
    exact or_congr_left (h.2 k)

/-- C9: the three registries of `WebSocketManager` keep one key set:
`connect` registers the client in all three (also when the nested
agent-connected broadcast prunes failed dashboards), `disconnect` of an
unknown id is a no-op and of a known id removes it from all three, and
the two broadcast operations only ever shrink the shared key set,
preserving the invariant. -/
theorem c9_registry_consistency (st : WsState) (h : wsInv st) :
    (∀ (ws : ℕ) (ctype cid : String) (now : ℤ) (f : String → Bool),
        wsInv (wsConnect st ws ctype cid now f) ∧
        cid ∈ wkeys (wsConnect st ws ctype cid now f).active_connections ∧
        cid ∈ wkeys (wsConnect st ws ctype cid now f).client_types ∧
        cid ∈ wkeys (wsConnect st ws ctype cid now f).last_seen) ∧
    (∀ cid, cid ∉ wkeys st.active_connections → wsDisconnect st cid = st) ∧
    (∀ cid, wsInv (wsDisconnect st cid) ∧
        (cid ∈ wkeys st.active_connections →
          cid ∉ wkeys (wsDisconnect st cid).active_connections ∧
          cid ∉ wkeys (wsDisconnect st cid).client_types ∧
          cid ∉ wkeys (wsDisconnect st cid).last_seen)) ∧
    (∀ f, wsInv (wsBroadcastMessage st f).1 ∧
        ∀ k, k ∈ wkeys (wsBroadcastMessage st f).1.active_connections →
          k ∈ wkeys st.active_connections) ∧
    (∀ f, wsInv (wsBroadcastToDashboards st f).1 ∧
        ∀ k, k ∈ wkeys (wsBroadcastToDashboards st f).1.active_connections →
          k ∈ wkeys st.active_connections) := by
  refine ⟨?_, ?_, ?_, ?_, ?_⟩
  · intro ws ctype cid now f
    have hinv1 := wsInv_insert st h cid ws ctype now
    unfold wsConnect
    by_cases hag : ctype = "agent"
    · rw [if_pos hag]
      have hinv2 : wsInv (wsBroadcastToDashboards
          ⟨dinsert st.active_connections cid ws,
           dinsert st.client_types cid ctype,
           dinsert st.last_seen cid now⟩ f).1 :=
        wsInv_foldl_disconnect _ _ hinv1
      have hcidmem : cid ∈ wkeys (dinsert st.active_connections cid ws) :=
        (mem_wkeys_dinsert _ _ _ _).mpr (Or.inr rfl)
      have hnotdash : cid ∉ ((wkeys (dinsert st.active_connections cid ws)).filter
          (fun x => decide (dlookup (dinsert st.client_types cid ctype) x =
            some ("dashboard")))).filter f := by
        intro hmem
        have h1 := (List.mem_filter.mp (List.mem_filter.mp hmem).1).2
        have h2 : dlookup (dinsert st.client_types cid ctype) cid =
            some ("dashboard") := of_decide_eq_true h1
        rw [dlookup_dinsert_self] at h2
        have h3 : ctype = "dashboard" := Option.some.inj h2
        rw [hag] at h3
        exact absurd h3 (by decide)
      have hactive : cid ∈ wkeys (wsBroadcastToDashboards
          ⟨dinsert st.active_connections cid ws,
           dinsert st.client_types cid ctype,
           dinsert st.last_seen cid now⟩ f).1.active_connections :=
        (foldl_disconnect_not_mem _ _ cid hnotdash).mpr hcidmem
      exact ⟨hinv2, hactive, (hinv2.1 cid).mp hactive, (hinv2.2 cid).mp hactive⟩
    · rw [if_neg hag]
      refine ⟨hinv1, ?_, ?_, ?_⟩ <;>
        exact (mem_wkeys_dinsert _ _ _ _).mpr (Or.inr rfl)
  · intro cid hn
    unfold wsDisconnect
    rw [if_neg (fun hcon => hn ((dcontains_iff _ _).mp hcon))]
  · intro cid
    refine ⟨wsInv_disconnect st cid h, ?_⟩
    intro hmem
    unfold wsDisconnect
    rw [if_pos ((dcontains_iff _ _).mpr hmem)]
    refine ⟨?_, ?_, ?_⟩ <;>
      exact fun hx => ((mem_wkeys_dremove _ _ _).mp hx).2 rfl
  · intro f
    exact ⟨wsInv_foldl_disconnect _ _ h, fun k => foldl_disconnect_active_sub _ _ k⟩
  · intro f
    exact ⟨wsInv_foldl_disconnect _ _ h, fun k => foldl_disconnect_active_sub _ _ k⟩

/-- C9 witness: the consistency theorem at a concrete one-client
registry. -/
theorem c9_registry_consistency_witness :
    wsInv ws9 ∧
    ((∀ (ws : ℕ) (ctype cid : String) (now : ℤ) (f : String → Bool),
        wsInv (wsConnect ws9 ws ctype cid now f) ∧
        cid ∈ wkeys (wsConnect ws9 ws ctype cid now f).active_connections ∧
        cid ∈ wkeys (wsConnect ws9 ws ctype cid now f).client_types ∧
        cid ∈ wkeys (wsConnect ws9 ws ctype cid now f).last_seen) ∧
      (∀ cid, cid ∉ wkeys ws9.active_connections → wsDisconnect ws9 cid = ws9) ∧
      (∀ cid, wsInv (wsDisconnect ws9 cid) ∧
          (cid ∈ wkeys ws9.active_connections →
            cid ∉ wkeys (wsDisconnect ws9 cid).active_connections ∧
            cid ∉ wkeys (wsDisconnect ws9 cid).client_types ∧
            cid ∉ wkeys (wsDisconnect ws9 cid).last_seen)) ∧
      (∀ f, wsInv (wsBroadcastMessage ws9 f).1 ∧
          ∀ k, k ∈ wkeys (wsBroadcastMessage ws9 f).1.active_connections →
            k ∈ wkeys ws9.active_connections) ∧
      (∀ f, wsInv (wsBroadcastToDashboards ws9 f).1 ∧
          ∀ k, k ∈ wkeys (wsBroadcastToDashboards ws9 f).1.active_connections →
            k ∈ wkeys ws9.active_connections)) :=
  ⟨⟨fun _ => Iff.rfl, fun _ => Iff.rfl⟩,
   c9_registry_consistency ws9 ⟨fun _ => Iff.rfl, fun _ => Iff.rfl⟩⟩

end MasterDashboard
